import Mathlib

/-!
Shallow embedding of the build-a-bear 3D configurator.

Sources: `src/script.js` (which holds two document versions of the app,
called V1 and V2 below: V1 is the first document, lines 1-385, V2 the
second, lines 386-862) and `src/unnamed/part_000` (the texture-based
variant, called Part000 below).

Scene-graph materials live in a heap (`List Material`) so that material
sharing (aliasing) between meshes is represented by two meshes holding the
same heap index.  `Material.clone()` is modelled as appending a copy of
the cell to the heap and repointing the mesh at the fresh index.
-/

/-- A THREE.js material as used by the repository: `name` (set by the
asset file), `color` as an RGB hex value, `map` the texture reference that
Part000's `updateBearSkin` assigns, and the `userData` clone markers
(`isCloned`, `isEyeCloned`, `isNoseCloned`) written by the
clone-on-first-write code.  THREE's `Material.copy` copies `name`,
`color`, `map` and deep-copies `userData`, so `clone()` duplicates every
field here. -/
structure Material where
  name : String
  color : Nat
  map : Option String
  isCloned : Bool
  isEyeCloned : Bool
  isNoseCloned : Bool
  deriving Repr, DecidableEq

/-- A drawable mesh: its node `name` and the heap index of its material.
Loaded GLTF meshes always carry a material, so the index is total; the
update functions below treat a dangling index as a skip. -/
structure Mesh where
  name : String
  mat : Nat
  deriving Repr, DecidableEq

/-- Whether `sub` occurs as a contiguous run inside `l`. -/
def hasSubstr (sub : List Char) : List Char → Bool
  | [] => sub.isEmpty
  | c :: tl => sub.isPrefixOf (c :: tl) || hasSubstr sub tl

/-- JS `String.prototype.includes` (substring test). -/
def strIncludes (s sub : String) : Bool :=
  hasSubstr sub.data s.data

/-- Association-list lookup, modelling a JS object-literal property read
(`obj[key]`, `undefined` on a miss). -/
def lookupStr : List (String × Nat) → String → Option Nat
  | [], _ => none
  | (k', v) :: tl, k => if k = k' then some v else lookupStr tl k

/-- `new THREE.Color(x)` for `x` a hex number or `undefined`: THREE's
`Color` constructor starts from white `(1,1,1)` and its `set` method does
nothing when the argument is neither a `Color`, a number nor a string, so
a missed color lookup (`undefined`) yields white, i.e. hex `0xFFFFFF`. -/
def threeColor : Option Nat → Nat
  | some v => v
  | none => 0xFFFFFF

/-- `CONFIG.colors.fur` from src/script.js (identical in V1 and V2). -/
def furColors : List (String × Nat) :=
  [("brown", 0x8B4513), ("beige", 0xD2B48C), ("white", 0xF5F5DC), ("pink", 0xFFB6C1)]

/-- `CONFIG.colors.eyes` from src/script.js (identical in V1 and V2). -/
def eyeColors : List (String × Nat) :=
  [("black", 0x000000), ("blue", 0x4169E1), ("brown", 0x654321), ("green", 0x228B22)]

/-- `material.color.copy(c)` / `material.color.setHex(c)` on the material
at heap index `i` (skip on a dangling index). -/
def setColorAt (h : List Material) (i : Nat) (c : Nat) : List Material :=
  match h[i]? with
  | some mat => h.set i { mat with color := c }
  | none => h

/-- Walk a mesh list in traversal order and set the material color of
every mesh satisfying `p`, in place and with no cloning.  This is the
shape of V1's `updateFurColor`/`updateEyeColor` walks and of Part000's
`updateAccessoryColor` walk (`p` constantly true there). -/
def colorFold (p : Mesh → Bool) (c : Nat) (h : List Material) : List Mesh → List Material
  | [] => h
  | m :: tl => colorFold p c (if p m then setColorAt h m.mat c else h) tl

/-- The observed color of a mesh: its material's color read through the
heap. -/
def observedColor (h : List Material) (m : Mesh) : Option Nat :=
  (h[m.mat]?).map Material.color

/-- The slice of the Scene Manager that the recolor operations touch: the
material heap and the active variant's meshes (`currentBear`, null before
any load completes). -/
structure RecolorState where
  heap : List Material
  currentBear : Option (List Mesh)
  deriving Repr, DecidableEq

namespace ScriptV1

/-- `SceneManager.updateFurColor` from script.js V1 (lines 206-215): no-op
without an active bear; otherwise look the color name up in
`CONFIG.colors.fur`, build a `THREE.Color` from the result, and copy it
into the material of every mesh whose node name contains `"Body"` — in
place, with no cloning. -/
def updateFurColor (colorName : String) (s : RecolorState) : RecolorState :=
  match s.currentBear with
  | none => s
  | some ms =>
    { s with
      heap := colorFold (fun m => strIncludes m.name "Body")
        (threeColor (lookupStr furColors colorName)) s.heap ms }

end ScriptV1

/-- `CONFIG.defaultState.accessories` from src/script.js. -/
structure Accessories where
  hat : Bool
  bow : Bool
  scarf : Bool
  deriving Repr, DecidableEq

/-- `BearState` (src/script.js): the Configuration State record. -/
structure BearState where
  currentForm : String
  furColor : String
  eyeColor : String
  accessories : Accessories
  deriving Repr, DecidableEq

/-- `CONFIG.defaultState` from src/script.js. -/
def defaultBearState : BearState :=
  { currentForm := "sitting", furColor := "brown", eyeColor := "black",
    accessories := { hat := false, bow := false, scarf := false } }

/-- `BearState.reset` (script.js lines 42-47): assign every field back
from `CONFIG.defaultState`, spread-copying the accessories object.  The
method reads and writes nothing outside the record, which the embedding
reflects in its type. -/
def BearState.reset (_s : BearState) : BearState :=
  { currentForm := defaultBearState.currentForm,
    furColor := defaultBearState.furColor,
    eyeColor := defaultBearState.eyeColor,
    accessories := defaultBearState.accessories }

namespace ScriptV2

/-- A scene-graph object handle as mutated by `switchBearForm` and
`repositionAccessories`: visibility flag, position and scale.  Coordinates
are kept in hundredths (JS `1.7` is `170` here) so the model stays in
exact integers; the claims only compare these values, never compute with
them. -/
structure Obj where
  visible : Bool
  px : Int
  py : Int
  pz : Int
  sx : Int
  sy : Int
  sz : Int
  deriving Repr, DecidableEq

/-- The Scene Manager slice mutated by `switchBearForm`: the variant
registry `bearModels` (which V2's `loadAssets` populates at exactly the
keys `sitting`, `standing` and `compact`), the accessory registry (keys
`hat`, `bow`, `scarf`), and `currentBear` held as the registry key of the
current variant (V2 only ever assigns `currentBear` a model that is
registered under that key). -/
structure SM where
  sitting : Option Obj
  standing : Option Obj
  compact : Option Obj
  hat : Option Obj
  bow : Option Obj
  scarf : Option Obj
  currentBear : Option String
  deriving Repr, DecidableEq

/-- `this.bearModels[formName]`. -/
def lookupForm (s : SM) (f : String) : Option Obj :=
  if f = "sitting" then s.sitting
  else if f = "standing" then s.standing
  else if f = "compact" then s.compact
  else none

/-- Write a variant registry slot back. -/
def setForm (s : SM) (f : String) (o : Obj) : SM :=
  if f = "sitting" then { s with sitting := some o }
  else if f = "standing" then { s with standing := some o }
  else if f = "compact" then { s with compact := some o }
  else s

/-- The first half of `switchBearForm`:
`if (this.currentBear) this.currentBear.visible = false;` — executed
before the registry lookup of the requested form. -/
def hideCurrent (s : SM) : SM :=
  match s.currentBear with
  | none => s
  | some c =>
    match lookupForm s c with
    | none => s
    | some o => setForm s c { o with visible := false }

/-- The `positions[...].hat` column of `repositionAccessories`
(y, scale in hundredths). -/
def positionsHat : String → Option (Int × Int)
  | "sitting" => some (170, 100)
  | "standing" => some (200, 100)
  | "compact" => some (140, 90)
  | _ => none

/-- The `positions[...].bow` column (x, y, scale in hundredths). -/
def positionsBow : String → Option (Int × Int × Int)
  | "sitting" => some (30, 160, 80)
  | "standing" => some (28, 190, 80)
  | "compact" => some (30, 130, 70)
  | _ => none

/-- The `positions[...].scarf` column (y, scale in hundredths). -/
def positionsScarf : String → Option (Int × Int)
  | "sitting" => some (100, 100)
  | "standing" => some (150, 100)
  | "compact" => some (80, 90)
  | _ => none

/-- `repositionAccessories` (script.js V2 lines 614-651): look the form up
in the `positions` table (return unchanged when absent), then apply the
per-form position/scale override to each loaded accessory. -/
def repositionAccessories (formName : String) (s : SM) : SM :=
  match positionsHat formName, positionsBow formName, positionsScarf formName with
  | some hp, some bp, some sp =>
    let s1 := match s.hat with
      | some a => { s with hat := some { a with py := hp.1, sx := hp.2, sy := hp.2, sz := hp.2 } }
      | none => s
    let s2 := match s1.bow with
      | some a => { s1 with bow := some { a with px := bp.1, py := bp.2.1, pz := 0, sx := bp.2.2, sy := bp.2.2, sz := bp.2.2 } }
      | none => s1
    match s2.scarf with
      | some a => { s2 with scarf := some { a with py := sp.1, sx := sp.2, sy := sp.2, sz := sp.2 } }
      | none => s2
  | _, _, _ => s

/-- `switchBearForm` (script.js V2 lines 597-612, V1 lines 192-204 is the
same without the repositioning): hide the current bear unconditionally,
then, when `formName` is registered, show it, make it current, and
reposition the accessories. -/
def switchBearForm (formName : String) (s : SM) : SM :=
  let s1 := hideCurrent s
  match lookupForm s1 formName with
  | none => s1
  | some o =>
    repositionAccessories formName
      (setForm { s1 with currentBear := some formName } formName { o with visible := true })

/-- A sequence of `switchBearForm` calls, first element applied first. -/
def runSwitches (l : List String) (s : SM) : SM :=
  l.foldl (fun t f => switchBearForm f t) s

/-- Visibility of an optional registry slot (`false` when unregistered). -/
def visOf : Option Obj → Bool
  | some o => o.visible
  | none => false

/-- Number of registered variants whose visibility flag is set. -/
def visCount (s : SM) : Nat :=
  (if visOf s.sitting then 1 else 0) + (if visOf s.standing then 1 else 0) +
    (if visOf s.compact then 1 else 0)

/-- Every visible registered variant is the one `currentBear` references —
the inductive invariant behind the visibility claims. -/
def goodCurrent (s : SM) : Prop :=
  (visOf s.sitting = true → s.currentBear = some "sitting") ∧
  (visOf s.standing = true → s.currentBear = some "standing") ∧
  (visOf s.compact = true → s.currentBear = some "compact")

instance (s : SM) : Decidable (goodCurrent s) := by
  unfold goodCurrent
  infer_instance

/-- The mesh walk of V2 `updateFurColor` (script.js lines 657-669): skip
meshes whose material is named `EyeBlack`; otherwise clone the material on
first write (the clone gets `userData.isCloned = true`) and set the color
on the mesh's (possibly fresh) material. -/
def furTraverse (c : Nat) (h : List Material) : List Mesh → List Material × List Mesh
  | [] => (h, [])
  | m :: tl =>
    match h[m.mat]? with
    | none =>
      let r := furTraverse c h tl
      (r.1, m :: r.2)
    | some mat =>
      if mat.name = "EyeBlack" then
        let r := furTraverse c h tl
        (r.1, m :: r.2)
      else if mat.isCloned then
        let r := furTraverse c (h.set m.mat { mat with color := c }) tl
        (r.1, m :: r.2)
      else
        let r := furTraverse c (h ++ [{ mat with isCloned := true, color := c }]) tl
        (r.1, { m with mat := h.length } :: r.2)

/-- V2 `updateFurColor` (script.js lines 653-670): no-op without an active
bear; otherwise run the fur walk with the looked-up color. -/
def updateFurColor (colorName : String) (s : RecolorState) : RecolorState :=
  match s.currentBear with
  | none => s
  | some ms =>
    let r := furTraverse (threeColor (lookupStr furColors colorName)) s.heap ms
    { heap := r.1, currentBear := some r.2 }

/-- The mesh walk of V2 `updateEyeColor` (script.js lines 676-687): only
meshes whose material is named `EyeBlack` are touched; the material is
cloned on first write (the clone gets `userData.isEyeCloned = true`). -/
def eyeTraverse (c : Nat) (h : List Material) : List Mesh → List Material × List Mesh
  | [] => (h, [])
  | m :: tl =>
    match h[m.mat]? with
    | none =>
      let r := eyeTraverse c h tl
      (r.1, m :: r.2)
    | some mat =>
      if mat.name = "EyeBlack" then
        if mat.isEyeCloned then
          let r := eyeTraverse c (h.set m.mat { mat with color := c }) tl
          (r.1, m :: r.2)
        else
          let r := eyeTraverse c (h ++ [{ mat with isEyeCloned := true, color := c }]) tl
          (r.1, { m with mat := h.length } :: r.2)
      else
        let r := eyeTraverse c h tl
        (r.1, m :: r.2)

/-- V2 `updateEyeColor` (script.js lines 672-688). -/
def updateEyeColor (colorName : String) (s : RecolorState) : RecolorState :=
  match s.currentBear with
  | none => s
  | some ms =>
    let r := eyeTraverse (threeColor (lookupStr eyeColors colorName)) s.heap ms
    { heap := r.1, currentBear := some r.2 }

end ScriptV2

namespace Part000

/-- The keys of `CONFIG.textures` in part_000; `textures[skinName]` is
truthy exactly when `skinName` is one of them. -/
def textureKeys : List String :=
  ["brown", "panda", "pink", "blue"]

/-- A loaded accessory: its scene-graph visibility flag and its meshes
(each pointing into the shared material heap).  The load handler gives
every accessory mesh a fresh `MeshStandardMaterial`. -/
structure Accessory where
  visible : Bool
  meshes : List Mesh
  deriving Repr, DecidableEq

/-- The module-level state of part_000 that the update functions touch:
the material heap, the loaded bear (`bear` nullable, its meshes in
traversal order), the `bearParts` classification (mesh-list indices:
`eyes`, `nose` — identity-based `includes`/`===` tests in the source
become index equality here), the accessory registry (`accessories` object
with fixed keys `hat`, `beanie`, `scarf`), and the `state` record fields.
DOM-only effects (`updateAccessoryColorSection`, active-button classes,
the loading indicator) mutate no modelled state and are omitted. -/
structure S where
  heap : List Material
  bearLoaded : Bool
  bearMeshes : List Mesh
  eyes : List Nat
  nose : Option Nat
  hat : Option Accessory
  beanie : Option Accessory
  scarf : Option Accessory
  skin : String
  eyeColor : Nat
  noseColor : Nat
  currentHat : String
  scarfVisible : Bool
  currentAccessoryColor : Nat
  deriving Repr, DecidableEq

/-- `accessories[name]` (the object has exactly the keys `hat`, `beanie`,
`scarf`). -/
def accGet (s : S) (n : String) : Option Accessory :=
  if n = "hat" then s.hat
  else if n = "beanie" then s.beanie
  else if n = "scarf" then s.scarf
  else none

/-- Write an accessory registry slot back. -/
def accSet (s : S) (n : String) (a : Accessory) : S :=
  if n = "hat" then { s with hat := some a }
  else if n = "beanie" then { s with beanie := some a }
  else if n = "scarf" then { s with scarf := some a }
  else s

/-- The mesh walk of `updateBearSkin` (part_000 lines 250-264), carrying
the traversal index `k` so the identity tests
`bearParts.eyes.includes(child)` / `bearParts.nose === child` become index
tests: skip eye and nose meshes; on the rest, clone the material on first
write (the clone gets `userData.isCloned = true`) and assign the skin
texture to its `map`. -/
def skinTraverse (tex : String) (eyes : List Nat) (nose : Option Nat) (h : List Material)
    (k : Nat) : List Mesh → List Material × List Mesh
  | [] => (h, [])
  | m :: tl =>
    if eyes.contains k || nose == some k then
      let r := skinTraverse tex eyes nose h (k + 1) tl
      (r.1, m :: r.2)
    else
      match h[m.mat]? with
      | none =>
        let r := skinTraverse tex eyes nose h (k + 1) tl
        (r.1, m :: r.2)
      | some mat =>
        if mat.isCloned then
          let r := skinTraverse tex eyes nose (h.set m.mat { mat with map := some tex }) (k + 1) tl
          (r.1, m :: r.2)
        else
          let r := skinTraverse tex eyes nose (h ++ [{ mat with isCloned := true, map := some tex }]) (k + 1) tl
          (r.1, { m with mat := h.length } :: r.2)

/-- `updateBearSkin` (part_000 lines 247-267): return unchanged when the
skin name is not a configured texture or the bear has not loaded;
otherwise walk the bear's meshes and record the new skin in `state`. -/
def updateBearSkin (skinName : String) (s : S) : S :=
  if !(textureKeys.contains skinName) || !s.bearLoaded then s
  else
    let r := skinTraverse skinName s.eyes s.nose s.heap 0 s.bearMeshes
    { s with heap := r.1, bearMeshes := r.2, skin := skinName }

/-- The `eyeMeshes.forEach` of `updatePartColor('eyes', ...)` (part_000
lines 274-280): for each recorded eye-mesh index, clone the material on
first write (the clone gets `userData.isEyeCloned = true`) and set its
color. -/
def eyesRecolor (c : Nat) : List Nat → List Material × List Mesh → List Material × List Mesh
  | [], st => st
  | e :: tl, (h, ms) =>
    match ms[e]? with
    | none => eyesRecolor c tl (h, ms)
    | some m =>
      match h[m.mat]? with
      | none => eyesRecolor c tl (h, ms)
      | some mat =>
        if mat.isEyeCloned then
          eyesRecolor c tl (h.set m.mat { mat with color := c }, ms)
        else
          eyesRecolor c tl (h ++ [{ mat with isEyeCloned := true, color := c }],
            ms.set e { m with mat := h.length })

/-- The nose branch of `updatePartColor` (part_000 lines 284-294). -/
def noseRecolor (c : Nat) (n : Nat) (h : List Material) (ms : List Mesh) :
    List Material × List Mesh :=
  match ms[n]? with
  | none => (h, ms)
  | some m =>
    match h[m.mat]? with
    | none => (h, ms)
    | some mat =>
      if mat.isNoseCloned then
        (h.set m.mat { mat with color := c }, ms)
      else
        (h ++ [{ mat with isNoseCloned := true, color := c }],
          ms.set n { m with mat := h.length })

/-- `updatePartColor` (part_000 lines 269-296): recolor the recorded eye
meshes (no-op when none are recorded, and only then is `state.eyeColor`
written) or the recorded nose mesh; other part names do nothing. -/
def updatePartColor (part : String) (c : Nat) (s : S) : S :=
  if part = "eyes" then
    if s.eyes.isEmpty then s
    else
      let r := eyesRecolor c s.eyes (s.heap, s.bearMeshes)
      { s with heap := r.1, bearMeshes := r.2, eyeColor := c }
  else if part = "nose" then
    match s.nose with
    | none => s
    | some n =>
      let r := noseRecolor c n s.heap s.bearMeshes
      { s with heap := r.1, bearMeshes := r.2, noseColor := c }
  else s

/-- `updateAccessoryColor` (part_000 lines 324-333): no-op when the named
accessory has not loaded; otherwise set the material color of every one of
its meshes, in place and with no cloning. -/
def updateAccessoryColor (n : String) (c : Nat) (s : S) : S :=
  match accGet s n with
  | none => s
  | some a => { s with heap := colorFold (fun _ => true) c s.heap a.meshes }

/-- `updateHat` (part_000 lines 298-311): hide both hat-group members
(`hat` and `beanie`) when loaded, then, when `hatType` is not `none` and
names a loaded accessory, show it and reapply the currently selected
accessory color to it; finally record `hatType` in `state.currentHat`. -/
def updateHat (hatType : String) (s : S) : S :=
  let s1 := match s.hat with
    | some a => { s with hat := some { a with visible := false } }
    | none => s
  let s2 := match s1.beanie with
    | some a => { s1 with beanie := some { a with visible := false } }
    | none => s1
  let s3 := if hatType = "none" then s2
    else
      match accGet s2 hatType with
      | some a => updateAccessoryColor hatType s2.currentAccessoryColor
          (accSet s2 hatType { a with visible := true })
      | none => s2
  { s3 with currentHat := hatType }

/-- `toggleScarf` (part_000 lines 313-322): when the scarf has loaded, set
its visibility and, when showing it, reapply the currently selected
accessory color; `state.scarfVisible` records the request either way. -/
def toggleScarf (v : Bool) (s : S) : S :=
  let s1 := match s.scarf with
    | some a =>
      let t := { s with scarf := some { a with visible := v } }
      if v then updateAccessoryColor "scarf" t.currentAccessoryColor t else t
    | none => s
  { s1 with scarfVisible := v }

/-- `updateCurrentAccessoryColor` (part_000 lines 335-343). -/
def updateCurrentAccessoryColor (c : Nat) (s : S) : S :=
  let s1 := { s with currentAccessoryColor := c }
  let s2 := if s1.currentHat = "none" then s1 else updateAccessoryColor s1.currentHat c s1
  if s2.scarfVisible then updateAccessoryColor "scarf" c s2 else s2

/-- `CONFIG.defaults` of part_000. -/
def defSkin : String := "brown"

/-- `CONFIG.defaults.eyeColor`. -/
def defEyeColor : Nat := 0x000000

/-- `CONFIG.defaults.noseColor`. -/
def defNoseColor : Nat := 0x000000

/-- `CONFIG.defaults.accessoryColor`. -/
def defAccessoryColor : Nat := 0xFFFFFF

/-- `CONFIG.defaults.hat`. -/
def defHat : String := "none"

/-- The `state`-record projection of part_000's module state (the
Configuration State of the spec). -/
def configOf (s : S) : String × Nat × Nat × String × Bool × Nat :=
  (s.skin, s.eyeColor, s.noseColor, s.currentHat, s.scarfVisible, s.currentAccessoryColor)

/-- The fixed default Configuration State record of part_000. -/
def configDefaults : String × Nat × Nat × String × Bool × Nat :=
  (defSkin, defEyeColor, defNoseColor, defHat, false, defAccessoryColor)

/-- `resetAll` (part_000 lines 396-430): write the defaults into `state`,
then re-invoke every scene update with the default values.  The remaining
statements of the source function only resynchronize DOM control state
and are omitted (they mutate nothing modelled here). -/
def resetAll (s : S) : S :=
  let s1 := { s with skin := defSkin, eyeColor := defEyeColor, noseColor := defNoseColor,
                     currentHat := defHat, scarfVisible := false,
                     currentAccessoryColor := defAccessoryColor }
  let s2 := updateBearSkin defSkin s1
  let s3 := updatePartColor "eyes" defEyeColor s2
  let s4 := updatePartColor "nose" defNoseColor s3
  let s5 := updateHat "none" s4
  let s6 := toggleScarf false s5
  updateCurrentAccessoryColor defAccessoryColor s6

/-- The `loadingStatus` record of part_000. -/
structure Loading where
  bear : Bool
  hat : Bool
  beanie : Bool
  scarf : Bool
  deriving Repr, DecidableEq

/-- `Object.values(loadingStatus).every(status => status === true)`. -/
def allLoaded (l : Loading) : Bool :=
  l.bear && l.hat && l.beanie && l.scarf

/-- Whether the interactive controls (every `button, input` element) are
enabled; the page markup starts them enabled and init disables them. -/
structure UI where
  controlsEnabled : Bool
  deriving Repr, DecidableEq

/-- `checkAllLoaded` (part_000 lines 113-124): when every asset has
loaded, enable all controls (and hide the loading indicator); return
whether every asset had loaded. -/
def checkAllLoaded (l : Loading) (u : UI) : UI × Bool :=
  if allLoaded l then ({ controlsEnabled := true }, true) else (u, false)

/-- The init statement (part_000 line 447) disabling every button and
input. -/
def initDisableControls (_u : UI) : UI :=
  { controlsEnabled := false }

/-- The `setTimeout` fallback (part_000 lines 454-461): after the fixed
3000 ms delay, run `checkAllLoaded()` and, when it reports false,
force-enable the controls anyway. -/
def timeoutFallback (l : Loading) (u : UI) : UI :=
  let r := checkAllLoaded l u
  if r.2 then r.1 else { controlsEnabled := true }

/-- A clone-ownership well-formedness check on a heap and mesh list: any
material cell referenced by two distinct meshes carries no clone marker
(as-loaded sharing; a marked cell is some mesh's private clone).  Every
state the program reaches satisfies it: loaders create materials with
empty `userData`, and marked cells are only ever created by `clone()` for
exactly one mesh. -/
def sharedUnflagged (h : List Material) (ms : List Mesh) : Bool :=
  (List.range ms.length).all fun j1 =>
    (List.range ms.length).all fun j2 =>
      j1 == j2 ||
        match ms[j1]?, ms[j2]? with
        | some m1, some m2 =>
          m1.mat != m2.mat ||
            match h[m1.mat]? with
            | some mat => !mat.isCloned && !mat.isEyeCloned && !mat.isNoseCloned
            | none => true
        | _, _ => true

end Part000

/-! ### Concrete states used to instantiate the theorems below -/

/-- A fresh as-loaded material: empty `userData` (no clone markers), no
texture assigned yet. -/
def mkMat (n : String) (c : Nat) : Material :=
  { name := n, color := c, map := none, isCloned := false, isEyeCloned := false,
    isNoseCloned := false }

/-- A Part000 state with all three accessories loaded. -/
def demoScene : Part000.S :=
  { heap := [mkMat "HatMat" 0x111111, mkMat "ScarfMat" 0x222222],
    bearLoaded := true, bearMeshes := [], eyes := [], nose := none,
    hat := some { visible := false, meshes := [{ name := "TopHat", mat := 0 }] },
    beanie := some { visible := true, meshes := [] },
    scarf := some { visible := false, meshes := [{ name := "Scarf", mat := 1 }] },
    skin := "brown", eyeColor := 0, noseColor := 0,
    currentHat := "none", scarfVisible := false, currentAccessoryColor := 0xFF0000 }

/-- A Part000 state before any load has completed. -/
def demoSceneBare : Part000.S :=
  { heap := [], bearLoaded := false, bearMeshes := [], eyes := [], nose := none,
    hat := none, beanie := none, scarf := none,
    skin := "brown", eyeColor := 0, noseColor := 0,
    currentHat := "none", scarfVisible := false, currentAccessoryColor := 0xFFFFFF }

/-- A Part000 state with a loaded bear: one eye mesh and one body mesh on
distinct as-loaded materials. -/
def demoBearScene : Part000.S :=
  { heap := [mkMat "EyeMat" 0x000000, mkMat "BodyMat" 0x333333],
    bearLoaded := true,
    bearMeshes := [{ name := "EyeL", mat := 0 }, { name := "Torso", mat := 1 }],
    eyes := [0], nose := none,
    hat := none, beanie := none, scarf := none,
    skin := "brown", eyeColor := 0, noseColor := 0,
    currentHat := "none", scarfVisible := false, currentAccessoryColor := 0xFFFFFF }

/-- A V1 recolor state: one brown body mesh. -/
def demoRecolor : RecolorState :=
  { heap := [mkMat "" 0x8B4513], currentBear := some [{ name := "Body", mat := 0 }] }

/-- A V1 recolor state in which a body mesh and an eye mesh share one
as-loaded material (as instanced surfaces from one asset would). -/
def demoRecolorShared : RecolorState :=
  { heap := [mkMat "" 0x000000],
    currentBear := some [{ name := "Body", mat := 0 }, { name := "Eye", mat := 0 }] }

/-- A V2 recolor state: an `EyeBlack`-material eye mesh and a fur mesh. -/
def demoRecolorV2 : RecolorState :=
  { heap := [mkMat "EyeBlack" 0x000000, mkMat "FurMat" 0x8B4513],
    currentBear := some [{ name := "EyeL", mat := 0 }, { name := "Torso", mat := 1 }] }

/-- A V2 Scene Manager state right after the sitting bear has loaded:
it is registered, visible and current; nothing else has loaded. -/
def demoSM : ScriptV2.SM :=
  { sitting := some { visible := true, px := 0, py := 0, pz := 0, sx := 100, sy := 100, sz := 100 },
    standing := some { visible := false, px := 0, py := 0, pz := 0, sx := 100, sy := 100, sz := 100 },
    compact := none, hat := none, bow := none, scarf := none,
    currentBear := some "sitting" }

/-! ### Helper lemmas about heap writes -/

theorem matSetColor_eq_self {mat : Material} {c : Nat} (h : mat.color = c) :
    ({ mat with color := c } : Material) = mat := by
  cases mat
  subst h
  rfl

theorem matSetColor_idem (mat : Material) (c : Nat) :
    ({ ({ mat with color := c } : Material) with color := c } : Material) =
      { mat with color := c } := rfl

theorem setColorAt_length (hA : List Material) (i c : Nat) :
    (setColorAt hA i c).length = hA.length := by
  unfold setColorAt
  cases hA[i]? <;> simp

theorem setColorAt_get_self {hA : List Material} {i : Nat} {mat : Material}
    (hm : hA[i]? = some mat) (c : Nat) :
    (setColorAt hA i c)[i]? = some { mat with color := c } := by
  obtain ⟨hi, -⟩ := List.getElem?_eq_some_iff.mp hm
  unfold setColorAt
  rw [hm]
  exact List.getElem?_set_self hi

theorem setColorAt_get_ne {hA : List Material} {i j : Nat} (hij : i ≠ j) (c : Nat) :
    (setColorAt hA i c)[j]? = hA[j]? := by
  unfold setColorAt
  cases hA[i]? with
  | none => rfl
  | some mat => exact List.getElem?_set_ne hij

theorem colorFold_length (p : Mesh → Bool) (c : Nat) :
    ∀ (ms : List Mesh) (hA : List Material), (colorFold p c hA ms).length = hA.length := by
  intro ms
  induction ms with
  | nil => intro hA; rfl
  | cons m tl ih =>
    intro hA
    show (colorFold p c (if p m then setColorAt hA m.mat c else hA) tl).length = hA.length
    rw [ih]
    by_cases hp : p m <;> simp [hp, setColorAt_length]

theorem colorFold_stable (p : Mesh → Bool) (c : Nat) :
    ∀ (ms : List Mesh) (hA : List Material) (i : Nat) (mat : Material),
      hA[i]? = some mat → mat.color = c → (colorFold p c hA ms)[i]? = some mat := by
  intro ms
  induction ms with
  | nil => intro hA i mat hm _; exact hm
  | cons m tl ih =>
    intro hA i mat hm hc
    show (colorFold p c (if p m then setColorAt hA m.mat c else hA) tl)[i]? = some mat
    by_cases hp : p m
    · by_cases hmi : m.mat = i
      · subst hmi
        have h1 := setColorAt_get_self hm c
        rw [matSetColor_eq_self hc] at h1
        simp only [hp, if_true]
        exact ih _ _ _ h1 hc
      · simp only [hp, if_true]
        exact ih _ _ _ (by rw [setColorAt_get_ne hmi]; exact hm) hc
    · simp only [hp, if_false]
      exact ih _ _ _ hm hc

theorem colorFold_written (p : Mesh → Bool) (c : Nat) :
    ∀ (ms : List Mesh) (hA : List Material) (i : Nat) (mat : Material),
      hA[i]? = some mat → (∃ m, m ∈ ms ∧ p m = true ∧ m.mat = i) →
      (colorFold p c hA ms)[i]? = some { mat with color := c } := by
  intro ms
  induction ms with
  | nil =>
    rintro hA i mat hm ⟨m, hmem, -, -⟩
    exact absurd hmem (List.not_mem_nil m)
  | cons m0 tl ih =>
    rintro hA i mat hm ⟨m, hmem, hpm, hmat⟩
    show (colorFold p c (if p m0 then setColorAt hA m0.mat c else hA) tl)[i]? = _
    rcases List.mem_cons.mp hmem with rfl | htl
    · subst hmat
      simp only [hpm, if_true]
      exact colorFold_stable p c tl _ _ _ (setColorAt_get_self hm c) rfl
    · by_cases hcase : p m0 = true ∧ m0.mat = i
      · obtain ⟨hp0, hm0⟩ := hcase
        subst hm0
        simp only [hp0, if_true]
        have h2 := ih _ _ _ (setColorAt_get_self hm c) ⟨m, htl, hpm, hmat⟩
        rw [matSetColor_idem] at h2
        exact h2
      · have hstep : (if p m0 then setColorAt hA m0.mat c else hA)[i]? = some mat := by
          by_cases hp0 : p m0
          · simp only [hp0, if_true]
            rw [setColorAt_get_ne (fun h => hcase ⟨by rw [hp0], h⟩)]
            exact hm
          · simp only [hp0, if_false]
            exact hm
        exact ih _ _ _ hstep ⟨m, htl, hpm, hmat⟩

/-! ### Structural lemmas about the part_000 update functions -/

namespace Part000

theorem updateAccessoryColor_shape (n : String) (c : Nat) (s : S) :
    ∃ hA, updateAccessoryColor n c s = { s with heap := hA } := by
  unfold updateAccessoryColor
  cases accGet s n with
  | none => exact ⟨s.heap, rfl⟩
  | some a => exact ⟨_, rfl⟩

theorem accGet_heapOnly (s : S) (hA : List Material) (n : String) :
    accGet { s with heap := hA } n = accGet s n := rfl

theorem accGet_updateAccessoryColor (n : String) (c : Nat) (s : S) (b : String) :
    accGet (updateAccessoryColor n c s) b = accGet s b := by
  obtain ⟨hA, he⟩ := updateAccessoryColor_shape n c s
  rw [he]
  rfl

theorem accSet_hat_ne (s : S) (n : String) (a : Accessory) (hn : n ≠ "hat") :
    (accSet s n a).hat = s.hat := by
  unfold accSet
  split_ifs <;> simp_all

theorem accSet_beanie_ne (s : S) (n : String) (a : Accessory) (hn : n ≠ "beanie") :
    (accSet s n a).beanie = s.beanie := by
  unfold accSet
  split_ifs <;> simp_all

theorem accSet_scarf_ne (s : S) (n : String) (a : Accessory) (hn : n ≠ "scarf") :
    (accSet s n a).scarf = s.scarf := by
  unfold accSet
  split_ifs <;> simp_all

end Part000

/-! ### Claim C8: startup disable and bounded fallback enable -/

/-- Claim C8: in the variant with the bounded fallback (part_000), the init
code disables all interactive controls, and when the fixed fallback delay
fires while not all assets have loaded (including none), the timeout
handler enables all controls anyway. -/
theorem claim_C8 (l : Part000.Loading) (u : Part000.UI)
    (hnl : Part000.allLoaded l = false) :
    (Part000.initDisableControls u).controlsEnabled = false ∧
    (Part000.timeoutFallback l u).controlsEnabled = true := by
  refine ⟨rfl, ?_⟩
  unfold Part000.timeoutFallback Part000.checkAllLoaded
  simp [hnl]

/-- Witness for C8 at the zero-assets-loaded state. -/
theorem claim_C8_witness :
    (Part000.initDisableControls { controlsEnabled := true }).controlsEnabled = false ∧
    (Part000.timeoutFallback { bear := false, hat := false, beanie := false, scarf := false }
      { controlsEnabled := false }).controlsEnabled = true :=
  claim_C8 { bear := false, hat := false, beanie := false, scarf := false }
    { controlsEnabled := true } (by decide)

/-! ### Claim C10: Configuration State records selections even when the
asset has not loaded -/

/-- Claim C10: `toggleScarf(v)` always records `v` in
`state.scarfVisible` and `updateHat(h)` always records `h` in
`state.currentHat`; when the corresponding accessory has not loaded the
call changes nothing else, so the Configuration State can record a
selection the scene graph does not reflect. -/
theorem claim_C10 (s : Part000.S) (v : Bool) (h : String) :
    (Part000.toggleScarf v s).scarfVisible = v ∧
    (Part000.updateHat h s).currentHat = h ∧
    (s.scarf = none → Part000.toggleScarf v s = { s with scarfVisible := v }) ∧
    (s.hat = none → s.beanie = none → (Part000.accGet s h = none ∨ h = "none") →
      Part000.updateHat h s = { s with currentHat := h }) := by
  refine ⟨rfl, rfl, ?_, ?_⟩
  · intro hsc
    unfold Part000.toggleScarf
    simp only [hsc]
  · intro hh hb hacc
    unfold Part000.updateHat
    simp only [hh, hb]
    rcases hacc with hacc | hacc
    · by_cases hn : h = "none"
      · simp [hn, hh, hb]
      · simp [hn, hacc, hh, hb]
    · simp [hacc, hh, hb]

/-- Witness for C10 at the no-accessories-loaded state. -/
theorem claim_C10_witness :
    Part000.toggleScarf true demoSceneBare = { demoSceneBare with scarfVisible := true } ∧
    Part000.updateHat "hat" demoSceneBare = { demoSceneBare with currentHat := "hat" } :=
  ⟨(claim_C10 demoSceneBare true "hat").2.2.1 (by decide),
   (claim_C10 demoSceneBare true "hat").2.2.2 (by decide) (by decide) (Or.inl (by decide))⟩

/-! ### Claim C6: the hat-group is mutually exclusive -/

theorem updateHat_on_beanie (s : Part000.S) :
    (Part000.updateHat "hat" s).beanie =
      Option.map (fun x => { x with visible := false }) s.beanie := by
  cases hh : s.hat <;> cases hb : s.beanie <;>
    simp [Part000.updateHat, Part000.accGet, Part000.accSet,
      Part000.updateAccessoryColor, hh, hb]

theorem updateHat_on_hat (s : Part000.S) :
    (Part000.updateHat "beanie" s).hat =
      Option.map (fun x => { x with visible := false }) s.hat := by
  cases hh : s.hat <;> cases hb : s.beanie <;>
    simp [Part000.updateHat, Part000.accGet, Part000.accSet,
      Part000.updateAccessoryColor, hh, hb]

/-- Claim C6: for every member `A` of the mutually-exclusive hat-like
accessory group (`hat`, `beanie`) and every prior state, after
`updateHat(A)` every other loaded member of that group is invisible. -/
theorem claim_C6 (s : Part000.S) (A B : String)
    (hA : A ∈ (["hat", "beanie"] : List String))
    (hB : B ∈ (["hat", "beanie"] : List String)) (hne : B ≠ A) :
    ∀ a, Part000.accGet (Part000.updateHat A s) B = some a → a.visible = false := by
  intro a ha
  simp only [List.mem_cons, List.not_mem_nil, or_false] at hA hB
  rcases hA with rfl | rfl <;> rcases hB with rfl | rfl
  · exact absurd rfl hne
  · have hb : Part000.accGet (Part000.updateHat "hat" s) "beanie" =
        (Part000.updateHat "hat" s).beanie := by
      simp [Part000.accGet]
    rw [hb, updateHat_on_beanie] at ha
    obtain ⟨x, -, hxa⟩ := Option.map_eq_some'.mp ha
    rw [← hxa]
  · have hb : Part000.accGet (Part000.updateHat "beanie" s) "hat" =
        (Part000.updateHat "beanie" s).hat := by
      simp [Part000.accGet]
    rw [hb, updateHat_on_hat] at ha
    obtain ⟨x, -, hxa⟩ := Option.map_eq_some'.mp ha
    rw [← hxa]
  · exact absurd rfl hne

/-- Witness for C6: showing the hat hides the loaded (visible) beanie. -/
theorem claim_C6_witness :
    Part000.Accessory.visible { visible := false, meshes := [] } = false :=
  claim_C6 demoScene "hat" "beanie" (by decide) (by decide) (by decide)
    { visible := false, meshes := [] } (by decide)

/-! ### Claim C7: reset restores the fixed default record -/

/-- Claim C7: `BearState.reset` yields exactly the fixed default record
whatever the prior state (and, by its type, touches nothing outside the
record); likewise part_000's `resetAll` leaves the Configuration State
record (`state`) equal to its fixed defaults whatever the prior state. -/
theorem claim_C7 (b : BearState) (s : Part000.S) :
    BearState.reset b = defaultBearState ∧
    Part000.configOf (Part000.resetAll s) = Part000.configDefaults := by
  refine ⟨rfl, ?_⟩
  cases hbl : s.bearLoaded <;> cases hey : s.eyes <;> cases hno : s.nose <;>
    cases hht : s.hat <;> cases hbe : s.beanie <;> cases hsc : s.scarf <;>
    simp [Part000.resetAll, Part000.updateBearSkin, Part000.updatePartColor,
      Part000.updateHat, Part000.toggleScarf, Part000.updateCurrentAccessoryColor,
      Part000.updateAccessoryColor, Part000.accGet, Part000.accSet, Part000.configOf,
      Part000.configDefaults, Part000.textureKeys, Part000.defSkin, Part000.defEyeColor,
      Part000.defNoseColor, Part000.defHat, Part000.defAccessoryColor,
      hbl, hey, hno, hht, hbe, hsc]

/-! ### Claim C9: a newly shown accessory gets the current accessory color -/

theorem accGet_some_keys {s : Part000.S} {A : String} {a : Part000.Accessory}
    (h : Part000.accGet s A = some a) : A = "hat" ∨ A = "beanie" ∨ A = "scarf" := by
  unfold Part000.accGet at h
  split_ifs at h with h1 h2 h3
  · exact Or.inl h1
  · exact Or.inr (Or.inl h2)
  · exact Or.inr (Or.inr h3)

theorem updateHat_hat_shows (s : Part000.S) (a : Part000.Accessory) (ha : s.hat = some a) :
    (Part000.updateHat "hat" s).heap =
      colorFold (fun _ => true) s.currentAccessoryColor s.heap a.meshes ∧
    (Part000.updateHat "hat" s).hat = some { a with visible := true } := by
  cases hbe : s.beanie <;>
    simp [Part000.updateHat, Part000.accGet, Part000.accSet,
      Part000.updateAccessoryColor, ha, hbe]

theorem updateHat_beanie_shows (s : Part000.S) (a : Part000.Accessory)
    (ha : s.beanie = some a) :
    (Part000.updateHat "beanie" s).heap =
      colorFold (fun _ => true) s.currentAccessoryColor s.heap a.meshes ∧
    (Part000.updateHat "beanie" s).beanie = some { a with visible := true } := by
  cases hht : s.hat <;>
    simp [Part000.updateHat, Part000.accGet, Part000.accSet,
      Part000.updateAccessoryColor, ha, hht]

theorem updateHat_scarf_shows (s : Part000.S) (a : Part000.Accessory)
    (ha : s.scarf = some a) :
    (Part000.updateHat "scarf" s).heap =
      colorFold (fun _ => true) s.currentAccessoryColor s.heap a.meshes ∧
    (Part000.updateHat "scarf" s).scarf = some { a with visible := true } := by
  cases hht : s.hat <;> cases hbe : s.beanie <;>
    simp [Part000.updateHat, Part000.accGet, Part000.accSet,
      Part000.updateAccessoryColor, ha, hht, hbe]

theorem toggleScarf_shows (s : Part000.S) (a : Part000.Accessory) (ha : s.scarf = some a) :
    (Part000.toggleScarf true s).heap =
      colorFold (fun _ => true) s.currentAccessoryColor s.heap a.meshes ∧
    (Part000.toggleScarf true s).scarf = some { a with visible := true } := by
  simp [Part000.toggleScarf, Part000.updateAccessoryColor, Part000.accGet, ha]

/-- Claim C9: whenever an accessory becomes visible — a loaded accessory
shown through `updateHat`, or the loaded scarf shown through
`toggleScarf(true)` — the currently selected accessory color
(`state.currentAccessoryColor`) is applied to every mesh of that
accessory. -/
theorem claim_C9 (s : Part000.S) :
    (∀ A a, Part000.accGet s A = some a → A ≠ "none" →
      Part000.accGet (Part000.updateHat A s) A = some { a with visible := true } ∧
      ∀ m, m ∈ a.meshes → m.mat < s.heap.length →
        ∃ mat, (Part000.updateHat A s).heap[m.mat]? = some mat ∧
          mat.color = s.currentAccessoryColor) ∧
    (∀ a, s.scarf = some a →
      Part000.accGet (Part000.toggleScarf true s) "scarf" = some { a with visible := true } ∧
      ∀ m, m ∈ a.meshes → m.mat < s.heap.length →
        ∃ mat, (Part000.toggleScarf true s).heap[m.mat]? = some mat ∧
          mat.color = s.currentAccessoryColor) := by
  constructor
  · intro A a ha hne
    rcases accGet_some_keys ha with rfl | rfl | rfl
    · have hslot : s.hat = some a := by simpa [Part000.accGet] using ha
      obtain ⟨hheap, hslot'⟩ := updateHat_hat_shows s a hslot
      refine ⟨by simpa [Part000.accGet] using hslot', ?_⟩
      intro m hm hlt
      rw [hheap]
      exact ⟨{ s.heap[m.mat] with color := s.currentAccessoryColor },
        colorFold_written _ _ a.meshes s.heap m.mat _
          (List.getElem?_eq_getElem hlt) ⟨m, hm, rfl, rfl⟩, rfl⟩
    · have hslot : s.beanie = some a := by simpa [Part000.accGet] using ha
      obtain ⟨hheap, hslot'⟩ := updateHat_beanie_shows s a hslot
      refine ⟨by simpa [Part000.accGet] using hslot', ?_⟩
      intro m hm hlt
      rw [hheap]
      exact ⟨{ s.heap[m.mat] with color := s.currentAccessoryColor },
        colorFold_written _ _ a.meshes s.heap m.mat _
          (List.getElem?_eq_getElem hlt) ⟨m, hm, rfl, rfl⟩, rfl⟩
    · have hslot : s.scarf = some a := by simpa [Part000.accGet] using ha
      obtain ⟨hheap, hslot'⟩ := updateHat_scarf_shows s a hslot
      refine ⟨by simpa [Part000.accGet] using hslot', ?_⟩
      intro m hm hlt
      rw [hheap]
      exact ⟨{ s.heap[m.mat] with color := s.currentAccessoryColor },
        colorFold_written _ _ a.meshes s.heap m.mat _
          (List.getElem?_eq_getElem hlt) ⟨m, hm, rfl, rfl⟩, rfl⟩
  · intro a ha
    obtain ⟨hheap, hslot'⟩ := toggleScarf_shows s a ha
    refine ⟨by simpa [Part000.accGet] using hslot', ?_⟩
    intro m hm hlt
    rw [hheap]
    exact ⟨{ s.heap[m.mat] with color := s.currentAccessoryColor },
      colorFold_written _ _ a.meshes s.heap m.mat _
        (List.getElem?_eq_getElem hlt) ⟨m, hm, rfl, rfl⟩, rfl⟩

/-- Witness for C9: showing the loaded hat of `demoScene` repaints its
mesh with the selected accessory color. -/
theorem claim_C9_witness :
    ∃ mat, (Part000.updateHat "hat" demoScene).heap[0]? = some mat ∧
      mat.color = demoScene.currentAccessoryColor :=
  ((claim_C9 demoScene).1 "hat"
    { visible := false, meshes := [{ name := "TopHat", mat := 0 }] }
    (by decide) (by decide)).2 { name := "TopHat", mat := 0 } (by decide) (by decide)

/-! ### Claim C1: unrecognized color identifiers -/

/-- Counterexample to C1 as stated: with a variant active, V1's
`updateFurColor` with the unrecognized color id `magenta` is not a no-op —
`CONFIG.colors.fur['magenta']` is `undefined`, `new THREE.Color(undefined)`
is white, and the brown Body surface is repainted white (`0xFFFFFF`). -/
theorem claim_C1_cex :
    lookupStr furColors "magenta" = none ∧
    demoRecolor.currentBear.isSome = true ∧
    observedColor demoRecolor.heap { name := "Body", mat := 0 } = some 0x8B4513 ∧
    observedColor (ScriptV1.updateFurColor "magenta" demoRecolor).heap
      { name := "Body", mat := 0 } = some 0xFFFFFF ∧
    (ScriptV1.updateFurColor "magenta" demoRecolor).heap ≠ demoRecolor.heap := by
  decide

/-- Claim C1 (amended): part_000's `updateBearSkin` with an unrecognized
skin name is a genuine silent no-op; but script.js's `updateFurColor` with
an unrecognized color name while a variant is active is not — it paints
every Body-named surface with the THREE default white `0xFFFFFF`. -/
theorem claim_C1 :
    (∀ (skin : String) (s : Part000.S), Part000.textureKeys.contains skin = false →
      Part000.updateBearSkin skin s = s) ∧
    (∀ (s : RecolorState) (ms : List Mesh) (colorName : String) (m : Mesh) (mat : Material),
      lookupStr furColors colorName = none → s.currentBear = some ms → m ∈ ms →
      strIncludes m.name "Body" = true → s.heap[m.mat]? = some mat →
      (ScriptV1.updateFurColor colorName s).heap[m.mat]? =
        some { mat with color := 0xFFFFFF }) := by
  constructor
  · intro skin s h
    unfold Part000.updateBearSkin
    have hc : (!(Part000.textureKeys.contains skin) || !s.bearLoaded) = true := by
      rw [h]
      rfl
    rw [hc]
    rfl
  · intro s ms colorName m mat hlk hcb hm hbody hmat
    unfold ScriptV1.updateFurColor
    rw [hcb]
    simp only [hlk, threeColor]
    exact colorFold_written _ _ ms s.heap m.mat mat hmat ⟨m, hm, hbody, rfl⟩

/-- Witness for C1 (amended) at concrete states. -/
theorem claim_C1_witness :
    Part000.updateBearSkin "neon" demoBearScene = demoBearScene ∧
    (ScriptV1.updateFurColor "magenta" demoRecolor).heap[0]? =
      some { mkMat "" 0x8B4513 with color := 0xFFFFFF } :=
  ⟨claim_C1.1 "neon" demoBearScene (by decide),
   claim_C1.2 demoRecolor [{ name := "Body", mat := 0 }] "magenta"
     { name := "Body", mat := 0 } (mkMat "" 0x8B4513)
     (by decide) (by decide) (by decide) (by decide) (by decide)⟩

/-! ### Claims C2 and C3: switchBearForm -/

theorem setForm_currentBear (s : ScriptV2.SM) (f : String) (o : ScriptV2.Obj) :
    (ScriptV2.setForm s f o).currentBear = s.currentBear := by
  unfold ScriptV2.setForm
  split_ifs <;> rfl

theorem setForm_hat (s : ScriptV2.SM) (f : String) (o : ScriptV2.Obj) :
    (ScriptV2.setForm s f o).hat = s.hat := by
  unfold ScriptV2.setForm
  split_ifs <;> rfl

theorem setForm_bow (s : ScriptV2.SM) (f : String) (o : ScriptV2.Obj) :
    (ScriptV2.setForm s f o).bow = s.bow := by
  unfold ScriptV2.setForm
  split_ifs <;> rfl

theorem setForm_scarf (s : ScriptV2.SM) (f : String) (o : ScriptV2.Obj) :
    (ScriptV2.setForm s f o).scarf = s.scarf := by
  unfold ScriptV2.setForm
  split_ifs <;> rfl

theorem lookupForm_sitting (s : ScriptV2.SM) :
    ScriptV2.lookupForm s "sitting" = s.sitting := by
  simp [ScriptV2.lookupForm]

theorem lookupForm_standing (s : ScriptV2.SM) :
    ScriptV2.lookupForm s "standing" = s.standing := by
  simp [ScriptV2.lookupForm]

theorem lookupForm_compact (s : ScriptV2.SM) :
    ScriptV2.lookupForm s "compact" = s.compact := by
  simp [ScriptV2.lookupForm]

theorem lookupForm_some_keys {s : ScriptV2.SM} {f : String} {o : ScriptV2.Obj}
    (h : ScriptV2.lookupForm s f = some o) :
    f = "sitting" ∨ f = "standing" ∨ f = "compact" := by
  unfold ScriptV2.lookupForm at h
  split_ifs at h with h1 h2 h3
  · exact Or.inl h1
  · exact Or.inr (Or.inl h2)
  · exact Or.inr (Or.inr h3)

theorem lookupForm_setForm_ne (s : ScriptV2.SM) (c f : String) (o : ScriptV2.Obj)
    (hne : c ≠ f) :
    ScriptV2.lookupForm (ScriptV2.setForm s c o) f = ScriptV2.lookupForm s f := by
  unfold ScriptV2.lookupForm ScriptV2.setForm
  split_ifs <;> simp_all

theorem hideCurrent_fields (s : ScriptV2.SM) :
    (ScriptV2.hideCurrent s).currentBear = s.currentBear ∧
    (ScriptV2.hideCurrent s).hat = s.hat ∧
    (ScriptV2.hideCurrent s).bow = s.bow ∧
    (ScriptV2.hideCurrent s).scarf = s.scarf := by
  unfold ScriptV2.hideCurrent
  split
  · exact ⟨rfl, rfl, rfl, rfl⟩
  · split
    · exact ⟨rfl, rfl, rfl, rfl⟩
    · exact ⟨setForm_currentBear _ _ _, setForm_hat _ _ _, setForm_bow _ _ _,
        setForm_scarf _ _ _⟩

theorem lookupForm_hideCurrent_none (s : ScriptV2.SM) (f : String)
    (h : ScriptV2.lookupForm s f = none) :
    ScriptV2.lookupForm (ScriptV2.hideCurrent s) f = none := by
  unfold ScriptV2.hideCurrent
  split
  · exact h
  · split
    · exact h
    · rename_i x1 c hc x2 o hl
      have hne : c ≠ f := by
        intro he
        rw [he, h] at hl
        exact absurd hl (by simp)
      rw [lookupForm_setForm_ne s c f _ hne]
      exact h

/-- Counterexample to C2 as stated: from the state right after the sitting
bear loads (registered, visible, current), `switchBearForm("flying")` — an
unregistered form id — is not a no-op: it leaves `currentBear` in place
but sets the sitting variant's visibility flag to false. -/
theorem claim_C2_cex :
    ScriptV2.lookupForm demoSM "flying" = none ∧
    ScriptV2.visOf (ScriptV2.lookupForm demoSM "sitting") = true ∧
    demoSM.currentBear = some "sitting" ∧
    ScriptV2.switchBearForm "flying" demoSM ≠ demoSM ∧
    ScriptV2.visOf (ScriptV2.lookupForm
      (ScriptV2.switchBearForm "flying" demoSM) "sitting") = false := by
  decide

/-- Claim C2 (amended): `switchBearForm(F)` with an unregistered `F`
performs exactly the hide-current step: `currentBear`, the accessory
registry, and every variant slot other than the current one are unchanged,
and when `currentBear` is null the call is a complete no-op — but the
current variant's visibility flag is cleared (see the counterexample), so
the call is not a full silent no-op. -/
theorem claim_C2 (s : ScriptV2.SM) (F : String)
    (hF : ScriptV2.lookupForm s F = none) :
    ScriptV2.switchBearForm F s = ScriptV2.hideCurrent s ∧
    (ScriptV2.switchBearForm F s).currentBear = s.currentBear ∧
    (ScriptV2.switchBearForm F s).hat = s.hat ∧
    (ScriptV2.switchBearForm F s).bow = s.bow ∧
    (ScriptV2.switchBearForm F s).scarf = s.scarf ∧
    (s.currentBear = none → ScriptV2.switchBearForm F s = s) := by
  have h1 : ScriptV2.lookupForm (ScriptV2.hideCurrent s) F = none :=
    lookupForm_hideCurrent_none s F hF
  have he : ScriptV2.switchBearForm F s = ScriptV2.hideCurrent s := by
    simp only [ScriptV2.switchBearForm]
    rw [h1]
  obtain ⟨hcb, hh, hb, hsc⟩ := hideCurrent_fields s
  refine ⟨he, by rw [he]; exact hcb, by rw [he]; exact hh, by rw [he]; exact hb,
    by rw [he]; exact hsc, ?_⟩
  intro hnone
  rw [he]
  unfold ScriptV2.hideCurrent
  rw [hnone]

/-- Witness for C2 (amended): switching to the unregistered `flying` form. -/
theorem claim_C2_witness :
    ScriptV2.switchBearForm "flying" demoSM = ScriptV2.hideCurrent demoSM ∧
    (ScriptV2.switchBearForm "flying" demoSM).currentBear = demoSM.currentBear :=
  ⟨(claim_C2 demoSM "flying" (by decide)).1,
   (claim_C2 demoSM "flying" (by decide)).2.1⟩

theorem setForm_sitting_eq (s : ScriptV2.SM) (o : ScriptV2.Obj) :
    (ScriptV2.setForm s "sitting" o).sitting = some o := by
  simp [ScriptV2.setForm]

theorem setForm_standing_eq (s : ScriptV2.SM) (o : ScriptV2.Obj) :
    (ScriptV2.setForm s "standing" o).standing = some o := by
  simp [ScriptV2.setForm]

theorem setForm_compact_eq (s : ScriptV2.SM) (o : ScriptV2.Obj) :
    (ScriptV2.setForm s "compact" o).compact = some o := by
  simp [ScriptV2.setForm]

theorem visOf_true {x : Option ScriptV2.Obj} (h : ScriptV2.visOf x = true) :
    ∃ o, x = some o ∧ o.visible = true := by
  cases x with
  | none => exact absurd h (by simp [ScriptV2.visOf])
  | some o => exact ⟨o, rfl, h⟩

theorem reposition_fields (f : String) (s : ScriptV2.SM) :
    (ScriptV2.repositionAccessories f s).sitting = s.sitting ∧
    (ScriptV2.repositionAccessories f s).standing = s.standing ∧
    (ScriptV2.repositionAccessories f s).compact = s.compact ∧
    (ScriptV2.repositionAccessories f s).currentBear = s.currentBear := by
  by_cases h1 : f = "sitting"
  · subst h1
    cases hh : s.hat <;> cases hb : s.bow <;> cases hs : s.scarf <;>
      simp [ScriptV2.repositionAccessories, ScriptV2.positionsHat,
        ScriptV2.positionsBow, ScriptV2.positionsScarf, hh, hb, hs]
  by_cases h2 : f = "standing"
  · subst h2
    cases hh : s.hat <;> cases hb : s.bow <;> cases hs : s.scarf <;>
      simp [ScriptV2.repositionAccessories, ScriptV2.positionsHat,
        ScriptV2.positionsBow, ScriptV2.positionsScarf, hh, hb, hs]
  by_cases h3 : f = "compact"
  · subst h3
    cases hh : s.hat <;> cases hb : s.bow <;> cases hs : s.scarf <;>
      simp [ScriptV2.repositionAccessories, ScriptV2.positionsHat,
        ScriptV2.positionsBow, ScriptV2.positionsScarf, hh, hb, hs]
  simp [ScriptV2.repositionAccessories, ScriptV2.positionsHat,
    ScriptV2.positionsBow, ScriptV2.positionsScarf, h1, h2, h3]

theorem hideCurrent_all_hidden (s : ScriptV2.SM) (h : ScriptV2.goodCurrent s) :
    ScriptV2.visOf (ScriptV2.hideCurrent s).sitting = false ∧
    ScriptV2.visOf (ScriptV2.hideCurrent s).standing = false ∧
    ScriptV2.visOf (ScriptV2.hideCurrent s).compact = false := by
  obtain ⟨h1, h2, h3⟩ := h
  unfold ScriptV2.hideCurrent
  split
  · rename_i hc
    refine ⟨?_, ?_, ?_⟩
    · cases hv : ScriptV2.visOf s.sitting
      · rfl
      · exact absurd (h1 hv) (by simp [hc])
    · cases hv : ScriptV2.visOf s.standing
      · rfl
      · exact absurd (h2 hv) (by simp [hc])
    · cases hv : ScriptV2.visOf s.compact
      · rfl
      · exact absurd (h3 hv) (by simp [hc])
  · rename_i x1 c hc
    split
    · rename_i hl
      refine ⟨?_, ?_, ?_⟩
      · cases hv : ScriptV2.visOf s.sitting
        · rfl
        · obtain ⟨o, ho, -⟩ := visOf_true hv
          have hcs : c = "sitting" := by
            have h4 := h1 hv
            rw [hc] at h4
            exact Option.some.inj h4
          rw [hcs, lookupForm_sitting, ho] at hl
          exact absurd hl (by simp)
      · cases hv : ScriptV2.visOf s.standing
        · rfl
        · obtain ⟨o, ho, -⟩ := visOf_true hv
          have hcs : c = "standing" := by
            have h4 := h2 hv
            rw [hc] at h4
            exact Option.some.inj h4
          rw [hcs, lookupForm_standing, ho] at hl
          exact absurd hl (by simp)
      · cases hv : ScriptV2.visOf s.compact
        · rfl
        · obtain ⟨o, ho, -⟩ := visOf_true hv
          have hcs : c = "compact" := by
            have h4 := h3 hv
            rw [hc] at h4
            exact Option.some.inj h4
          rw [hcs, lookupForm_compact, ho] at hl
          exact absurd hl (by simp)
    · rename_i x2 o hl
      rcases lookupForm_some_keys hl with rfl | rfl | rfl
      · refine ⟨?_, ?_, ?_⟩
        · simp [ScriptV2.setForm, ScriptV2.visOf]
        · cases hv : ScriptV2.visOf s.standing
          · simpa [ScriptV2.setForm] using hv
          · exact absurd (h2 hv) (by simp [hc])
        · cases hv : ScriptV2.visOf s.compact
          · simpa [ScriptV2.setForm] using hv
          · exact absurd (h3 hv) (by simp [hc])
      · refine ⟨?_, ?_, ?_⟩
        · cases hv : ScriptV2.visOf s.sitting
          · simpa [ScriptV2.setForm] using hv
          · exact absurd (h1 hv) (by simp [hc])
        · simp [ScriptV2.setForm, ScriptV2.visOf]
        · cases hv : ScriptV2.visOf s.compact
          · simpa [ScriptV2.setForm] using hv
          · exact absurd (h3 hv) (by simp [hc])
      · refine ⟨?_, ?_, ?_⟩
        · cases hv : ScriptV2.visOf s.sitting
          · simpa [ScriptV2.setForm] using hv
          · exact absurd (h1 hv) (by simp [hc])
        · cases hv : ScriptV2.visOf s.standing
          · simpa [ScriptV2.setForm] using hv
          · exact absurd (h2 hv) (by simp [hc])
        · simp [ScriptV2.setForm, ScriptV2.visOf]

theorem goodCurrent_switch (s : ScriptV2.SM) (f : String) (h : ScriptV2.goodCurrent s) :
    ScriptV2.goodCurrent (ScriptV2.switchBearForm f s) := by
  obtain ⟨a1, a2, a3⟩ := hideCurrent_all_hidden s h
  simp only [ScriptV2.switchBearForm]
  split
  · exact ⟨fun hv => absurd hv (by simp [a1]), fun hv => absurd hv (by simp [a2]),
      fun hv => absurd hv (by simp [a3])⟩
  · rename_i x1 o hl
    rcases lookupForm_some_keys hl with rfl | rfl | rfl
    · obtain ⟨r1, r2, r3, r4⟩ := reposition_fields "sitting"
        (ScriptV2.setForm { ScriptV2.hideCurrent s with currentBear := some "sitting" }
          "sitting" { o with visible := true })
      refine ⟨?_, ?_, ?_⟩
      · intro hv
        rw [r4, setForm_currentBear]
      · intro hv
        rw [r2] at hv
        simp [ScriptV2.setForm, a2] at hv
      · intro hv
        rw [r3] at hv
        simp [ScriptV2.setForm, a3] at hv
    · obtain ⟨r1, r2, r3, r4⟩ := reposition_fields "standing"
        (ScriptV2.setForm { ScriptV2.hideCurrent s with currentBear := some "standing" }
          "standing" { o with visible := true })
      refine ⟨?_, ?_, ?_⟩
      · intro hv
        rw [r1] at hv
        simp [ScriptV2.setForm, a1] at hv
      · intro hv
        rw [r4, setForm_currentBear]
      · intro hv
        rw [r3] at hv
        simp [ScriptV2.setForm, a3] at hv
    · obtain ⟨r1, r2, r3, r4⟩ := reposition_fields "compact"
        (ScriptV2.setForm { ScriptV2.hideCurrent s with currentBear := some "compact" }
          "compact" { o with visible := true })
      refine ⟨?_, ?_, ?_⟩
      · intro hv
        rw [r1] at hv
        simp [ScriptV2.setForm, a1] at hv
      · intro hv
        rw [r2] at hv
        simp [ScriptV2.setForm, a2] at hv
      · intro hv
        rw [r4, setForm_currentBear]

theorem goodCurrent_visCount (s : ScriptV2.SM) (h : ScriptV2.goodCurrent s) :
    ScriptV2.visCount s ≤ 1 := by
  obtain ⟨h1, h2, h3⟩ := h
  unfold ScriptV2.visCount
  cases hv1 : ScriptV2.visOf s.sitting <;> cases hv2 : ScriptV2.visOf s.standing <;>
    cases hv3 : ScriptV2.visOf s.compact <;> simp_all

theorem goodCurrent_run (l : List String) :
    ∀ s : ScriptV2.SM, ScriptV2.goodCurrent s →
      ScriptV2.goodCurrent (ScriptV2.runSwitches l s) := by
  induction l with
  | nil => intro s h; exact h
  | cons f tl ih =>
    intro s h
    exact ih _ (goodCurrent_switch s f h)

/-- Counterexample to C3 as stated: from a state with exactly one
registered variant visible (the claim's precondition), a single
`switchBearForm` call with the unregistered id `flying` reaches a state
with zero visible variants. -/
theorem claim_C3_cex :
    ScriptV2.visCount demoSM = 1 ∧
    ScriptV2.goodCurrent demoSM ∧
    ScriptV2.lookupForm demoSM "flying" = none ∧
    ScriptV2.visCount (ScriptV2.runSwitches ["flying"] demoSM) = 0 := by
  decide

/-- Claim C3 (amended): starting from any state in which every visible
registered variant is the one `currentBear` references (in particular the
claim's start state, one visible registered variant held by
`currentBear`), every state reachable by `switchBearForm` calls keeps that
invariant and has at most one visible registered variant — never two, but
zero is reachable (see the counterexample). -/
theorem claim_C3 (s : ScriptV2.SM) (h : ScriptV2.goodCurrent s) (l : List String) :
    ScriptV2.goodCurrent (ScriptV2.runSwitches l s) ∧
    ScriptV2.visCount (ScriptV2.runSwitches l s) ≤ 1 :=
  ⟨goodCurrent_run l s h, goodCurrent_visCount _ (goodCurrent_run l s h)⟩

/-- Witness for C3 (amended): a successful switch then a failed one. -/
theorem claim_C3_witness :
    ScriptV2.goodCurrent demoSM ∧
    ScriptV2.visCount (ScriptV2.runSwitches ["standing", "flying"] demoSM) ≤ 1 :=
  ⟨by decide, (claim_C3 demoSM (by decide) ["standing", "flying"]).2⟩

/-! ### Heap-cell preservation lemmas for the clone-on-write walks -/

theorem furTraverse_unflagged (c : Nat) :
    ∀ (ms : List Mesh) (hA : List Material) (i : Nat) (mat : Material),
      hA[i]? = some mat → mat.isCloned = false →
      (ScriptV2.furTraverse c hA ms).1[i]? = some mat := by
  intro ms
  induction ms with
  | nil => intro hA i mat hm _; exact hm
  | cons m tl ih =>
    intro hA i mat hm hflag
    simp only [ScriptV2.furTraverse]
    split
    · exact ih hA i mat hm hflag
    · rename_i x0 mat2 hm2
      split_ifs with h1 h2
      · exact ih hA i mat hm hflag
      · have hne : m.mat ≠ i := by
          intro he
          rw [he, hm] at hm2
          have h4 := Option.some.inj hm2
          rw [← h4] at h2
          rw [hflag] at h2
          exact Bool.false_ne_true h2
        exact ih _ i mat (by rw [List.getElem?_set_ne hne]; exact hm) hflag
      · have hi : i < hA.length := (List.getElem?_eq_some_iff.mp hm).1
        exact ih _ i mat (by rw [List.getElem?_append_left hi]; exact hm) hflag

theorem furTraverse_eyeblack_cell (c : Nat) :
    ∀ (ms : List Mesh) (hA : List Material) (i : Nat) (mat : Material),
      hA[i]? = some mat → mat.name = "EyeBlack" →
      (ScriptV2.furTraverse c hA ms).1[i]? = some mat := by
  intro ms
  induction ms with
  | nil => intro hA i mat hm _; exact hm
  | cons m tl ih =>
    intro hA i mat hm hname
    simp only [ScriptV2.furTraverse]
    split
    · exact ih hA i mat hm hname
    · rename_i x0 mat2 hm2
      split_ifs with h1 h2
      · exact ih hA i mat hm hname
      · have hne : m.mat ≠ i := by
          intro he
          rw [he, hm] at hm2
          exact h1 ((Option.some.inj hm2) ▸ hname)
        exact ih _ i mat (by rw [List.getElem?_set_ne hne]; exact hm) hname
      · have hi : i < hA.length := (List.getElem?_eq_some_iff.mp hm).1
        exact ih _ i mat (by rw [List.getElem?_append_left hi]; exact hm) hname

theorem eyeTraverse_unflagged (c : Nat) :
    ∀ (ms : List Mesh) (hA : List Material) (i : Nat) (mat : Material),
      hA[i]? = some mat → mat.isEyeCloned = false →
      (ScriptV2.eyeTraverse c hA ms).1[i]? = some mat := by
  intro ms
  induction ms with
  | nil => intro hA i mat hm _; exact hm
  | cons m tl ih =>
    intro hA i mat hm hflag
    simp only [ScriptV2.eyeTraverse]
    split
    · exact ih hA i mat hm hflag
    · rename_i x0 mat2 hm2
      split_ifs with h1 h2
      · have hne : m.mat ≠ i := by
          intro he
          rw [he, hm] at hm2
          have h4 := Option.some.inj hm2
          rw [← h4] at h2
          rw [hflag] at h2
          exact Bool.false_ne_true h2
        exact ih _ i mat (by rw [List.getElem?_set_ne hne]; exact hm) hflag
      · have hi : i < hA.length := (List.getElem?_eq_some_iff.mp hm).1
        exact ih _ i mat (by rw [List.getElem?_append_left hi]; exact hm) hflag
      · exact ih hA i mat hm hflag

theorem eyeTraverse_noneyeblack_cell (c : Nat) :
    ∀ (ms : List Mesh) (hA : List Material) (i : Nat) (mat : Material),
      hA[i]? = some mat → mat.name ≠ "EyeBlack" →
      (ScriptV2.eyeTraverse c hA ms).1[i]? = some mat := by
  intro ms
  induction ms with
  | nil => intro hA i mat hm _; exact hm
  | cons m tl ih =>
    intro hA i mat hm hname
    simp only [ScriptV2.eyeTraverse]
    split
    · exact ih hA i mat hm hname
    · rename_i x0 mat2 hm2
      split_ifs with h1 h2
      · have hne : m.mat ≠ i := by
          intro he
          rw [he, hm] at hm2
          exact hname ((Option.some.inj hm2) ▸ h1)
        exact ih _ i mat (by rw [List.getElem?_set_ne hne]; exact hm) hname
      · have hi : i < hA.length := (List.getElem?_eq_some_iff.mp hm).1
        exact ih _ i mat (by rw [List.getElem?_append_left hi]; exact hm) hname
      · exact ih hA i mat hm hname

theorem furTraverse_exempt (c : Nat) :
    ∀ (ms : List Mesh) (hA : List Material) (k : Nat) (m : Mesh) (mat : Material),
      ms[k]? = some m → hA[m.mat]? = some mat → mat.name = "EyeBlack" →
      (ScriptV2.furTraverse c hA ms).2[k]? = some m ∧
      (ScriptV2.furTraverse c hA ms).1[m.mat]? = some mat := by
  intro ms
  induction ms with
  | nil => intro hA k m mat hk _ _; exact absurd hk (by simp)
  | cons m0 tl ih =>
    intro hA k m mat hk hm hname
    simp only [ScriptV2.furTraverse]
    split
    · rename_i hm0
      cases k with
      | zero =>
        have he : m0 = m := by simpa using hk
        subst he
        exact ⟨by simp, furTraverse_eyeblack_cell c tl hA _ mat hm hname⟩
      | succ k' =>
        have hk' : tl[k']? = some m := by simpa using hk
        obtain ⟨ha, hb⟩ := ih hA k' m mat hk' hm hname
        exact ⟨by simpa using ha, hb⟩
    · rename_i x0 mat2 hm2
      split_ifs with h1 h2
      · cases k with
        | zero =>
          have he : m0 = m := by simpa using hk
          subst he
          exact ⟨by simp, furTraverse_eyeblack_cell c tl hA _ mat hm hname⟩
        | succ k' =>
          have hk' : tl[k']? = some m := by simpa using hk
          obtain ⟨ha, hb⟩ := ih hA k' m mat hk' hm hname
          exact ⟨by simpa using ha, hb⟩
      · have hne : m0.mat ≠ m.mat := by
          intro he
          rw [he, hm] at hm2
          exact h1 ((Option.some.inj hm2) ▸ hname)
        have hm' : (hA.set m0.mat { mat2 with color := c })[m.mat]? = some mat := by
          rw [List.getElem?_set_ne hne]
          exact hm
        cases k with
        | zero =>
          have he : m0 = m := by simpa using hk
          exact absurd (by rw [he]) hne
        | succ k' =>
          have hk' : tl[k']? = some m := by simpa using hk
          obtain ⟨ha, hb⟩ := ih _ k' m mat hk' hm' hname
          exact ⟨by simpa using ha, hb⟩
      · have hi : m.mat < hA.length := (List.getElem?_eq_some_iff.mp hm).1
        have hm' : (hA ++ [{ mat2 with isCloned := true, color := c }])[m.mat]? = some mat := by
          rw [List.getElem?_append_left hi]
          exact hm
        cases k with
        | zero =>
          have he : m0 = m := by simpa using hk
          subst he
          rw [hm] at hm2
          exact absurd ((Option.some.inj hm2) ▸ hname) h1
        | succ k' =>
          have hk' : tl[k']? = some m := by simpa using hk
          obtain ⟨ha, hb⟩ := ih _ k' m mat hk' hm' hname
          exact ⟨by simpa using ha, hb⟩

theorem eyeTraverse_nonexempt (c : Nat) :
    ∀ (ms : List Mesh) (hA : List Material) (k : Nat) (m : Mesh) (mat : Material),
      ms[k]? = some m → hA[m.mat]? = some mat → mat.name ≠ "EyeBlack" →
      (ScriptV2.eyeTraverse c hA ms).2[k]? = some m ∧
      (ScriptV2.eyeTraverse c hA ms).1[m.mat]? = some mat := by
  intro ms
  induction ms with
  | nil => intro hA k m mat hk _ _; exact absurd hk (by simp)
  | cons m0 tl ih =>
    intro hA k m mat hk hm hname
    simp only [ScriptV2.eyeTraverse]
    split
    · rename_i hm0
      cases k with
      | zero =>
        have he : m0 = m := by simpa using hk
        subst he
        exact ⟨by simp, eyeTraverse_noneyeblack_cell c tl hA _ mat hm hname⟩
      | succ k' =>
        have hk' : tl[k']? = some m := by simpa using hk
        obtain ⟨ha, hb⟩ := ih hA k' m mat hk' hm hname
        exact ⟨by simpa using ha, hb⟩
    · rename_i x0 mat2 hm2
      split_ifs with h1 h2
      · have hne : m0.mat ≠ m.mat := by
          intro he
          rw [he, hm] at hm2
          exact hname ((Option.some.inj hm2) ▸ h1)
        have hm' : (hA.set m0.mat { mat2 with color := c })[m.mat]? = some mat := by
          rw [List.getElem?_set_ne hne]
          exact hm
        cases k with
        | zero =>
          have he : m0 = m := by simpa using hk
          exact absurd (by rw [he]) hne
        | succ k' =>
          have hk' : tl[k']? = some m := by simpa using hk
          obtain ⟨ha, hb⟩ := ih _ k' m mat hk' hm' hname
          exact ⟨by simpa using ha, hb⟩
      · have hi : m.mat < hA.length := (List.getElem?_eq_some_iff.mp hm).1
        have hm' : (hA ++ [{ mat2 with isEyeCloned := true, color := c }])[m.mat]? = some mat := by
          rw [List.getElem?_append_left hi]
          exact hm
        cases k with
        | zero =>
          have he : m0 = m := by simpa using hk
          subst he
          rw [hm] at hm2
          exact absurd ((Option.some.inj hm2) ▸ h1) hname
        | succ k' =>
          have hk' : tl[k']? = some m := by simpa using hk
          obtain ⟨ha, hb⟩ := ih _ k' m mat hk' hm' hname
          exact ⟨by simpa using ha, hb⟩
      · cases k with
        | zero =>
          have he : m0 = m := by simpa using hk
          subst he
          exact ⟨by simp, eyeTraverse_noneyeblack_cell c tl hA _ mat hm hname⟩
        | succ k' =>
          have hk' : tl[k']? = some m := by simpa using hk
          obtain ⟨ha, hb⟩ := ih hA k' m mat hk' hm hname
          exact ⟨by simpa using ha, hb⟩

theorem mem_contains_true {l : List Nat} {j : Nat} (hm : j ∈ l) : l.contains j = true :=
  List.elem_eq_true_of_mem hm

theorem sharedUnflagged_spec {hA : List Material} {ms : List Mesh}
    (h : Part000.sharedUnflagged hA ms = true) :
    ∀ (j1 j2 : Nat) (m1 m2 : Mesh) (mat : Material), j1 ≠ j2 →
      ms[j1]? = some m1 → ms[j2]? = some m2 → m1.mat = m2.mat →
      hA[m1.mat]? = some mat →
      mat.isCloned = false ∧ mat.isEyeCloned = false ∧ mat.isNoseCloned = false := by
  intro j1 j2 m1 m2 mat hne h1 h2 heq hmat
  unfold Part000.sharedUnflagged at h
  rw [List.all_eq_true] at h
  have hj1 : j1 ∈ List.range ms.length :=
    List.mem_range.mpr (List.getElem?_eq_some_iff.mp h1).1
  have hj2 : j2 ∈ List.range ms.length :=
    List.mem_range.mpr (List.getElem?_eq_some_iff.mp h2).1
  have h5 := (List.all_eq_true.mp (h j1 hj1)) j2 hj2
  simp only [h1, h2, hmat] at h5
  simp [hne, heq, hmat] at h5
  exact ⟨h5.1.1, h5.1.2, h5.2⟩

theorem skinTraverse_unflagged (tex : String) (eyes : List Nat) (nose : Option Nat) :
    ∀ (ms : List Mesh) (hA : List Material) (k i : Nat) (mat : Material),
      hA[i]? = some mat → mat.isCloned = false →
      (Part000.skinTraverse tex eyes nose hA k ms).1[i]? = some mat := by
  intro ms
  induction ms with
  | nil => intro hA k i mat hm _; exact hm
  | cons m tl ih =>
    intro hA k i mat hm hflag
    simp only [Part000.skinTraverse]
    split_ifs with hex
    · exact ih hA (k + 1) i mat hm hflag
    · split
      · exact ih hA (k + 1) i mat hm hflag
      · rename_i x0 mat2 hm2
        split_ifs with h1
        · have hne : m.mat ≠ i := by
            intro he
            rw [he, hm] at hm2
            have h4 := Option.some.inj hm2
            rw [← h4] at h1
            rw [hflag] at h1
            exact Bool.false_ne_true h1
          exact ih _ (k + 1) i mat (by rw [List.getElem?_set_ne hne]; exact hm) hflag
        · have hi : i < hA.length := (List.getElem?_eq_some_iff.mp hm).1
          exact ih _ (k + 1) i mat (by rw [List.getElem?_append_left hi]; exact hm) hflag

theorem skinTraverse_nopointer (tex : String) (eyes : List Nat) (nose : Option Nat) :
    ∀ (ms : List Mesh) (hA : List Material) (k i : Nat) (mat : Material),
      hA[i]? = some mat →
      (∀ (j : Nat) (m' : Mesh), ms[j]? = some m' →
        (eyes.contains (k + j) || nose == some (k + j)) = false → m'.mat ≠ i) →
      (Part000.skinTraverse tex eyes nose hA k ms).1[i]? = some mat := by
  intro ms
  induction ms with
  | nil => intro hA k i mat hm _; exact hm
  | cons m tl ih =>
    intro hA k i mat hm hptr
    have hsh : ∀ (j : Nat) (m' : Mesh), tl[j]? = some m' →
        (eyes.contains ((k + 1) + j) || nose == some ((k + 1) + j)) = false → m'.mat ≠ i := by
      intro j m' hj hcond
      refine hptr (j + 1) m' (by simpa using hj) ?_
      rw [show k + (j + 1) = (k + 1) + j from by omega]
      exact hcond
    simp only [Part000.skinTraverse]
    split_ifs with hex
    · exact ih hA (k + 1) i mat hm hsh
    · split
      · exact ih hA (k + 1) i mat hm hsh
      · rename_i x0 mat2 hm2
        have hexf : (eyes.contains k || nose == some k) = false := by
          cases hcc : (eyes.contains k || nose == some k)
          · rfl
          · exact absurd hcc hex
        have hne : m.mat ≠ i := hptr 0 m (by simp) (by simpa using hexf)
        split_ifs with h1
        · exact ih _ (k + 1) i mat (by rw [List.getElem?_set_ne hne]; exact hm) hsh
        · have hi : i < hA.length := (List.getElem?_eq_some_iff.mp hm).1
          exact ih _ (k + 1) i mat (by rw [List.getElem?_append_left hi]; exact hm) hsh

theorem skinTraverse_exempt_mesh (tex : String) (eyes : List Nat) (nose : Option Nat) :
    ∀ (ms : List Mesh) (hA : List Material) (k j : Nat) (m : Mesh),
      ms[j]? = some m → (eyes.contains (k + j) || nose == some (k + j)) = true →
      (Part000.skinTraverse tex eyes nose hA k ms).2[j]? = some m := by
  intro ms
  induction ms with
  | nil => intro hA k j m hj _; exact absurd hj (by simp)
  | cons m0 tl ih =>
    intro hA k j m hj hex
    simp only [Part000.skinTraverse]
    cases j with
    | zero =>
      have he : m0 = m := by simpa using hj
      subst he
      have hexk : k ∈ eyes ∨ nose = some k := by simpa using hex
      simp [hexk]
    | succ j' =>
      have hj' : tl[j']? = some m := by simpa using hj
      have hex' : (eyes.contains ((k + 1) + j') || nose == some ((k + 1) + j')) = true := by
        rw [show (k + 1) + j' = k + (j' + 1) from by omega]
        exact hex
      split_ifs with hexh
      · simpa using ih hA (k + 1) j' m hj' hex'
      · split
        · simpa using ih hA (k + 1) j' m hj' hex'
        · rename_i x0 mat2 hm2
          split_ifs with h1
          · simpa using ih _ (k + 1) j' m hj' hex'
          · simpa using ih _ (k + 1) j' m hj' hex'

theorem eyesRecolor_unflagged (c : Nat) :
    ∀ (es : List Nat) (hA : List Material) (ms : List Mesh) (i : Nat) (mat : Material),
      hA[i]? = some mat → mat.isEyeCloned = false →
      (Part000.eyesRecolor c es (hA, ms)).1[i]? = some mat := by
  intro es
  induction es with
  | nil => intro hA ms i mat hm _; exact hm
  | cons e tl ih =>
    intro hA ms i mat hm hflag
    simp only [Part000.eyesRecolor]
    split
    · exact ih hA ms i mat hm hflag
    · rename_i x0 m hme
      split
      · exact ih hA ms i mat hm hflag
      · rename_i x1 mat2 hm2
        split_ifs with h1
        · have hne : m.mat ≠ i := by
            intro he
            rw [he, hm] at hm2
            have h4 := Option.some.inj hm2
            rw [← h4] at h1
            rw [hflag] at h1
            exact Bool.false_ne_true h1
          exact ih _ ms i mat (by rw [List.getElem?_set_ne hne]; exact hm) hflag
        · have hi : i < hA.length := (List.getElem?_eq_some_iff.mp hm).1
          exact ih _ _ i mat (by rw [List.getElem?_append_left hi]; exact hm) hflag

theorem eyesRecolor_nopointer (c : Nat) :
    ∀ (es : List Nat) (hA : List Material) (ms : List Mesh) (i : Nat) (mat : Material),
      hA[i]? = some mat →
      (∀ (e : Nat) (m' : Mesh), e ∈ es → ms[e]? = some m' → m'.mat ≠ i) →
      (Part000.eyesRecolor c es (hA, ms)).1[i]? = some mat := by
  intro es
  induction es with
  | nil => intro hA ms i mat hm _; exact hm
  | cons e tl ih =>
    intro hA ms i mat hm hptr
    simp only [Part000.eyesRecolor]
    split
    · exact ih hA ms i mat hm
        (fun e' m' he' => hptr e' m' (List.mem_cons_of_mem e he'))
    · rename_i x0 m hme
      have hnem : m.mat ≠ i := hptr e m (List.mem_cons_self e tl) hme
      split
      · exact ih hA ms i mat hm
          (fun e' m' he' => hptr e' m' (List.mem_cons_of_mem e he'))
      · rename_i x1 mat2 hm2
        split_ifs with h1
        · exact ih _ ms i mat (by rw [List.getElem?_set_ne hnem]; exact hm)
            (fun e' m' he' => hptr e' m' (List.mem_cons_of_mem e he'))
        · have hi : i < hA.length := (List.getElem?_eq_some_iff.mp hm).1
          refine ih _ (ms.set e { m with mat := hA.length }) i mat
            (by rw [List.getElem?_append_left hi]; exact hm) ?_
          intro e' m' he' hsome
          by_cases hee : e' = e
          · subst hee
            have hlt : e' < ms.length := (List.getElem?_eq_some_iff.mp hme).1
            rw [List.getElem?_set_self hlt] at hsome
            have h6 : ({ m with mat := hA.length } : Mesh) = m' := Option.some.inj hsome
            rw [← h6]
            show hA.length ≠ i
            omega
          · rw [List.getElem?_set_ne (fun hh => hee hh.symm)] at hsome
            exact hptr e' m' (List.mem_cons_of_mem e he') hsome

theorem eyesRecolor_mesh_preserved (c : Nat) :
    ∀ (es : List Nat) (hA : List Material) (ms : List Mesh) (j : Nat),
      es.contains j = false →
      (Part000.eyesRecolor c es (hA, ms)).2[j]? = ms[j]? := by
  intro es
  induction es with
  | nil => intro hA ms j _; rfl
  | cons e tl ih =>
    intro hA ms j hcont
    rw [List.contains_cons] at hcont
    have hne : e ≠ j := by
      intro he
      subst he
      simp at hcont
    have htl : tl.contains j = false := by
      cases hcc : tl.contains j
      · rfl
      · rw [hcc] at hcont
        simp at hcont
    simp only [Part000.eyesRecolor]
    split
    · exact ih hA ms j htl
    · rename_i x0 m hme
      split
      · exact ih hA ms j htl
      · rename_i x1 mat2 hm2
        split_ifs with h1
        · exact ih _ ms j htl
        · rw [ih _ _ j htl]
          exact List.getElem?_set_ne hne

/-! ### Claim C4: clone-on-first-write protects shared materials -/

/-- Counterexample to C4 as stated: V1's `updateFurColor` (script.js lines
206-215) does not clone.  With a Body mesh and an Eye mesh sharing one
as-loaded material, recoloring the fur mutates the shared material in
place and the sibling Eye surface changes color too. -/
theorem claim_C4_cex :
    demoRecolorShared.currentBear =
      some [{ name := "Body", mat := 0 }, { name := "Eye", mat := 0 }] ∧
    observedColor demoRecolorShared.heap { name := "Eye", mat := 0 } = some 0x000000 ∧
    observedColor (ScriptV1.updateFurColor "brown" demoRecolorShared).heap
      { name := "Eye", mat := 0 } = some 0x8B4513 := by
  decide

/-- Claim C4 (amended): in the clone-on-write recolor operations — V2's
`updateFurColor` and `updateEyeColor` (script.js lines 653-688) and
part_000's `updateBearSkin` — a material cell not yet carrying the
relevant clone marker is never mutated: the first write always goes to a
fresh clone, so a sibling surface still holding the original shared
material keeps it bit-for-bit.  V1's recolor (script.js lines 206-226)
mutates shared materials in place and does repaint siblings (see the
counterexample). -/
theorem claim_C4 :
    (∀ (s : RecolorState) (colorName : String) (i : Nat) (mat : Material),
      s.heap[i]? = some mat → mat.isCloned = false →
      (ScriptV2.updateFurColor colorName s).heap[i]? = some mat) ∧
    (∀ (s : RecolorState) (colorName : String) (i : Nat) (mat : Material),
      s.heap[i]? = some mat → mat.isEyeCloned = false →
      (ScriptV2.updateEyeColor colorName s).heap[i]? = some mat) ∧
    (∀ (skinName : String) (s : Part000.S) (i : Nat) (mat : Material),
      s.heap[i]? = some mat → mat.isCloned = false →
      (Part000.updateBearSkin skinName s).heap[i]? = some mat) := by
  refine ⟨?_, ?_, ?_⟩
  · intro s colorName i mat hm hflag
    unfold ScriptV2.updateFurColor
    split
    · exact hm
    · rename_i x0 ms hcb
      exact furTraverse_unflagged _ ms s.heap i mat hm hflag
  · intro s colorName i mat hm hflag
    unfold ScriptV2.updateEyeColor
    split
    · exact hm
    · rename_i x0 ms hcb
      exact eyeTraverse_unflagged _ ms s.heap i mat hm hflag
  · intro skinName s i mat hm hflag
    unfold Part000.updateBearSkin
    split_ifs with hg
    · exact hm
    · exact skinTraverse_unflagged skinName s.eyes s.nose s.bearMeshes s.heap 0 i mat hm hflag

/-- Witness for C4 (amended): the as-loaded (unflagged) fur cell survives
a V2 fur recolor, the eye cell survives a V2 eye recolor, and the bear's
body cell survives a part_000 skin change. -/
theorem claim_C4_witness :
    (ScriptV2.updateFurColor "brown" demoRecolorV2).heap[1]? =
      some (mkMat "FurMat" 0x8B4513) ∧
    (ScriptV2.updateEyeColor "blue" demoRecolorV2).heap[0]? =
      some (mkMat "EyeBlack" 0x000000) ∧
    (Part000.updateBearSkin "panda" demoBearScene).heap[1]? =
      some (mkMat "BodyMat" 0x333333) :=
  ⟨claim_C4.1 demoRecolorV2 "brown" 1 (mkMat "FurMat" 0x8B4513) (by decide) (by decide),
   claim_C4.2.1 demoRecolorV2 "blue" 0 (mkMat "EyeBlack" 0x000000) (by decide) (by decide),
   claim_C4.2.2 "panda" demoBearScene 1 (mkMat "BodyMat" 0x333333) (by decide) (by decide)⟩

/-! ### Claim C5: exempt surfaces and recolor channels -/

/-- Claim C5: the fur-channel recolors never change an exempt surface and
the eye-channel recolor never changes a non-exempt surface.  In V2 the
exemption convention is the `EyeBlack` material-name sentinel:
`updateFurColor` leaves every mesh whose material is named `EyeBlack`
untouched (same mesh at the same position, same material cell), and
`updateEyeColor` leaves every mesh whose material is not named `EyeBlack`
untouched.  In part_000 the convention is the `bearParts` mesh
classification: under the clone-ownership well-formedness that all
reachable states satisfy (`sharedUnflagged`), `updateBearSkin` leaves
every eye/nose-classified mesh and its material cell untouched, and the
eye branch of `updatePartColor` leaves every mesh not classified as an
eye untouched. -/
theorem claim_C5 :
    (∀ (s : RecolorState) (colorName : String) (ms : List Mesh) (k : Nat) (m : Mesh)
        (mat : Material),
      s.currentBear = some ms → ms[k]? = some m → s.heap[m.mat]? = some mat →
      mat.name = "EyeBlack" →
      ∃ ms2, (ScriptV2.updateFurColor colorName s).currentBear = some ms2 ∧
        ms2[k]? = some m ∧
        (ScriptV2.updateFurColor colorName s).heap[m.mat]? = some mat) ∧
    (∀ (s : RecolorState) (colorName : String) (ms : List Mesh) (k : Nat) (m : Mesh)
        (mat : Material),
      s.currentBear = some ms → ms[k]? = some m → s.heap[m.mat]? = some mat →
      mat.name ≠ "EyeBlack" →
      ∃ ms2, (ScriptV2.updateEyeColor colorName s).currentBear = some ms2 ∧
        ms2[k]? = some m ∧
        (ScriptV2.updateEyeColor colorName s).heap[m.mat]? = some mat) ∧
    (∀ (skinName : String) (s : Part000.S) (j : Nat) (m : Mesh) (mat : Material),
      Part000.sharedUnflagged s.heap s.bearMeshes = true →
      (s.eyes.contains j || s.nose == some j) = true →
      s.bearMeshes[j]? = some m → s.heap[m.mat]? = some mat →
      (Part000.updateBearSkin skinName s).bearMeshes[j]? = some m ∧
      (Part000.updateBearSkin skinName s).heap[m.mat]? = some mat) ∧
    (∀ (c : Nat) (s : Part000.S) (j : Nat) (m : Mesh) (mat : Material),
      Part000.sharedUnflagged s.heap s.bearMeshes = true →
      s.eyes.contains j = false →
      s.bearMeshes[j]? = some m → s.heap[m.mat]? = some mat →
      (Part000.updatePartColor "eyes" c s).bearMeshes[j]? = some m ∧
      (Part000.updatePartColor "eyes" c s).heap[m.mat]? = some mat) := by
  refine ⟨?_, ?_, ?_, ?_⟩
  · intro s colorName ms k m mat hcb hk hm hname
    obtain ⟨ha, hb⟩ := furTraverse_exempt (threeColor (lookupStr furColors colorName))
      ms s.heap k m mat hk hm hname
    refine ⟨(ScriptV2.furTraverse (threeColor (lookupStr furColors colorName)) s.heap ms).2,
      ?_, ha, ?_⟩
    · unfold ScriptV2.updateFurColor
      rw [hcb]
    · unfold ScriptV2.updateFurColor
      rw [hcb]
      exact hb
  · intro s colorName ms k m mat hcb hk hm hname
    obtain ⟨ha, hb⟩ := eyeTraverse_nonexempt (threeColor (lookupStr eyeColors colorName))
      ms s.heap k m mat hk hm hname
    refine ⟨(ScriptV2.eyeTraverse (threeColor (lookupStr eyeColors colorName)) s.heap ms).2,
      ?_, ha, ?_⟩
    · unfold ScriptV2.updateEyeColor
      rw [hcb]
    · unfold ScriptV2.updateEyeColor
      rw [hcb]
      exact hb
  · intro skinName s j m mat hsu hex hj hm
    unfold Part000.updateBearSkin
    split_ifs with hg
    · exact ⟨hj, hm⟩
    · constructor
      · exact skinTraverse_exempt_mesh skinName s.eyes s.nose s.bearMeshes s.heap 0 j m hj
          (by simpa using hex)
      · cases hflag : mat.isCloned
        · exact skinTraverse_unflagged skinName s.eyes s.nose s.bearMeshes s.heap 0 m.mat mat
            hm hflag
        · refine skinTraverse_nopointer skinName s.eyes s.nose s.bearMeshes s.heap 0 m.mat mat
            hm ?_
          intro j' m' hj' hcond heq
          have hne : j' ≠ j := by
            intro he
            subst he
            have h7 : (s.eyes.contains j' || s.nose == some j') = false := by
              simpa using hcond
            rw [hex] at h7
            exact absurd h7 (by decide)
          have hm' : s.heap[m'.mat]? = some mat := by
            rw [heq]
            exact hm
          obtain ⟨hc1, -, -⟩ := sharedUnflagged_spec hsu j' j m' m mat hne hj' hj heq hm'
          rw [hflag] at hc1
          exact absurd hc1 (by decide)
  · intro c s j m mat hsu hnc hj hm
    unfold Part000.updatePartColor
    rw [if_pos rfl]
    split_ifs with hemp
    · exact ⟨hj, hm⟩
    · constructor
      · rw [eyesRecolor_mesh_preserved c s.eyes s.heap s.bearMeshes j hnc]
        exact hj
      · cases hflag : mat.isEyeCloned
        · exact eyesRecolor_unflagged c s.eyes s.heap s.bearMeshes m.mat mat hm hflag
        · refine eyesRecolor_nopointer c s.eyes s.heap s.bearMeshes m.mat mat hm ?_
          intro e m' he hsome heq
          have hne : e ≠ j := by
            intro h7
            subst h7
            rw [mem_contains_true he] at hnc
            exact absurd hnc (by decide)
          have hm' : s.heap[m'.mat]? = some mat := by
            rw [heq]
            exact hm
          obtain ⟨-, hc2, -⟩ := sharedUnflagged_spec hsu e j m' m mat hne hsome hj heq hm'
          rw [hflag] at hc2
          exact absurd hc2 (by decide)

/-- Witness for C5: the `EyeBlack` eye cell survives a V2 fur recolor, and
part_000's classified eye mesh survives a skin change. -/
theorem claim_C5_witness :
    (∃ ms2, (ScriptV2.updateFurColor "brown" demoRecolorV2).currentBear = some ms2 ∧
      ms2[0]? = some { name := "EyeL", mat := 0 } ∧
      (ScriptV2.updateFurColor "brown" demoRecolorV2).heap[(0 : Nat)]? =
        some (mkMat "EyeBlack" 0x000000)) ∧
    ((Part000.updateBearSkin "panda" demoBearScene).bearMeshes[0]? =
      some { name := "EyeL", mat := 0 } ∧
    (Part000.updateBearSkin "panda" demoBearScene).heap[(0 : Nat)]? =
      some (mkMat "EyeMat" 0x000000)) :=
  ⟨claim_C5.1 demoRecolorV2 "brown"
      [{ name := "EyeL", mat := 0 }, { name := "Torso", mat := 1 }] 0
      { name := "EyeL", mat := 0 } (mkMat "EyeBlack" 0x000000)
      (by decide) (by decide) (by decide) (by decide),
   claim_C5.2.2.1 "panda" demoBearScene 0 { name := "EyeL", mat := 0 }
      (mkMat "EyeMat" 0x000000) (by decide) (by decide) (by decide) (by decide)⟩
